import Mathlib

/-!
Shallow embedding of `src/sbc_solver.js` (EAUTOOLS SBC Requirements Solver).

JavaScript numbers that the program uses as integers (ratings, chemistry,
costs, squad sizes) are modelled as `ℤ`; the intermediate arithmetic of
`estimatePlayerCost`, `calculateRequiredRating` and `calculateSquadRating`
goes through non-integral values, so it is carried out in `ℚ` and rounded
with the JavaScript rounding functions:
  `Math.round x = ⌊x + 1/2⌋` (round half toward +∞),
  `Math.ceil x = ⌈x⌉`.
`ℚ` models IEEE doubles exactly on every value this program reaches
(small decimal multipliers and small integer operands); division by zero
(JS `Infinity`) is never reached on the paths proved about, and where a
theorem needs a nonzero divisor it carries that as a hypothesis.

A raw requirements object is a record of `Option` fields (a key is either
absent, or present with an integer / array value).  JavaScript `x || d`
defaulting treats a present numeric `0` as falsy, which the helpers
`jsOrNum` / `jsOrNullNum` reproduce; a present array (even `[]`) is truthy,
which `Option.getD` reproduces for the array-valued fields.
-/

/-- JavaScript `Math.round`: round half toward positive infinity. -/
def jsRound (q : ℚ) : ℤ := ⌊q + 1/2⌋

/-- JavaScript `Math.ceil`. -/
def jsCeil (q : ℚ) : ℤ := ⌈q⌉

/-- JS `v || d` for a numeric field: absent or `0` (falsy) falls to the default. -/
def jsOrNum (v : Option ℤ) (d : ℤ) : ℤ :=
  match v with
  | none => d
  | some x => if x = 0 then d else x

/-- JS `v || null` for a numeric field: absent or `0` becomes `null`. -/
def jsOrNullNum (v : Option ℤ) : Option ℤ :=
  match v with
  | none => none
  | some x => if x = 0 then none else some x

/-- A synthesized candidate player (the object literal built by `findOptimalPlayer`). -/
structure Player where
  position : String
  rating : ℤ
  league : String
  nation : String
  club : String
  rarity : String
  cost : ℤ
  chemistry : ℤ
deriving DecidableEq, Repr

/-- The `constraints` sub-record of the parsed requirements. -/
structure Constraints where
  leagues : List String
  nations : List String
  clubs : List String
  rarities : List String
  positions : List (String × ℤ)
deriving DecidableEq, Repr

/-- The `special` sub-record of the parsed requirements (distribution limits). -/
structure SpecialReqs where
  maxSameLeague : Option ℤ
  maxSameNation : Option ℤ
  maxSameClub : Option ℤ
  minDifferentLeagues : Option ℤ
  minDifferentNations : Option ℤ
deriving DecidableEq, Repr

/-- Output of `parseRequirements` (the normalized requirements record). -/
structure ParsedReqs where
  squadSize : ℤ
  minChemistry : ℤ
  minRating : ℤ
  maxCost : ℤ
  constraints : Constraints
  special : SpecialReqs
deriving DecidableEq, Repr

/-- A raw requirements object: each key is absent (`none`) or present with a value. -/
structure RawReq where
  players : Option ℤ
  chemistry : Option ℤ
  rating : Option ℤ
  maxCost : Option ℤ
  leagues : Option (List String)
  nations : Option (List String)
  clubs : Option (List String)
  rarities : Option (List String)
  positions : Option (List (String × ℤ))
  maxSameLeague : Option ℤ
  maxSameNation : Option ℤ
  maxSameClub : Option ℤ
  minDifferentLeagues : Option ℤ
  minDifferentNations : Option ℤ
deriving DecidableEq, Repr

/-- A raw requirements object with every key absent (`{}` in JS). -/
def emptyRaw : RawReq :=
  { players := none, chemistry := none, rating := none, maxCost := none,
    leagues := none, nations := none, clubs := none, rarities := none,
    positions := none, maxSameLeague := none, maxSameNation := none,
    maxSameClub := none, minDifferentLeagues := none, minDifferentNations := none }

/-- The argument passed to `solveSBCRequirements`: either not an object
(`null`, a number, ...) or a requirements record. -/
inductive RawInput where
  | notObject : RawInput
  | obj : RawReq → RawInput
deriving DecidableEq

/-- `this.playerDatabase.leagues`. -/
def playerDatabaseLeagues : List String :=
  ["Premier League", "La Liga", "Serie A", "Bundesliga", "Ligue 1"]

/-- `this.playerDatabase.nations`. -/
def playerDatabaseNations : List String :=
  ["England", "Spain", "Italy", "Germany", "France", "Brazil", "Argentina"]

/-- `this.playerDatabase.rarityValues[r].cost`, with the code's
`|| rarityValues.bronze` fallback for an unknown rarity string. -/
def rarityBaseCost (rarity : String) : ℚ :=
  if rarity = "bronze" then 150
  else if rarity = "silver" then 400
  else if rarity = "gold" then 800
  else 150

/-- `validateRequirements`: the input must be an object containing the
`players` and `chemistry` keys. -/
def validateRequirements (input : RawInput) : Bool :=
  match input with
  | .notObject => false
  | .obj r => r.players.isSome && r.chemistry.isSome

/-- `parseRequirements`: fill in defaults with JS `||` semantics. -/
def parseRequirements (r : RawReq) : ParsedReqs :=
  { squadSize := jsOrNum r.players 11
    minChemistry := jsOrNum r.chemistry 100
    minRating := jsOrNum r.rating 75
    maxCost := jsOrNum r.maxCost 50000
    constraints :=
      { leagues := r.leagues.getD []
        nations := r.nations.getD []
        clubs := r.clubs.getD []
        rarities := r.rarities.getD []
        positions := r.positions.getD [] }
    special :=
      { maxSameLeague := jsOrNullNum r.maxSameLeague
        maxSameNation := jsOrNullNum r.maxSameNation
        maxSameClub := jsOrNullNum r.maxSameClub
        minDifferentLeagues := jsOrNullNum r.minDifferentLeagues
        minDifferentNations := jsOrNullNum r.minDifferentNations } }

/-- A formation: ordered position labels plus a chemistry bonus weight. -/
structure Formation where
  positions : List String
  chemistryBonus : ℤ
deriving DecidableEq, Repr

/-- The `'4-3-3'` entry of the formations table. -/
def formation433 : Formation :=
  { positions := ["GK", "LB", "CB", "CB", "RB", "CM", "CM", "CM", "LW", "ST", "RW"]
    chemistryBonus := 5 }

/-- The `'4-4-2'` entry of the formations table (defined but never selected). -/
def formation442 : Formation :=
  { positions := ["GK", "LB", "CB", "CB", "RB", "LM", "CM", "CM", "RM", "ST", "ST"]
    chemistryBonus := 3 }

/-- The `'3-5-2'` entry of the formations table (defined but never selected). -/
def formation352 : Formation :=
  { positions := ["GK", "CB", "CB", "CB", "LM", "CM", "CM", "CM", "RM", "ST", "ST"]
    chemistryBonus := 4 }

/-- `selectOptimalFormation`: always returns `formations['4-3-3']`. -/
def selectOptimalFormation (_parsedReqs : ParsedReqs) : Formation :=
  formation433

/-- Number of players in `squad` whose attribute `f` equals `v`
(the count stored in the JS tally object; `0` stands for an absent key,
which compares the same as JS `undefined` under `>` against a key's
count, since every key of the tally has count ≥ 1). -/
def countBy (squad : List Player) (f : Player → String) (v : String) : ℕ :=
  (squad.filter (fun p => f p == v)).length

/-- `Object.keys` of the tally built by `forEach` in insertion order:
the distinct attribute values in order of first appearance. -/
def keysInOrder (squad : List Player) (f : Player → String) : List String :=
  squad.foldl (fun acc p => if f p ∈ acc then acc else acc ++ [f p]) []

/-- `Object.keys(counts).reduce((a, b) => counts[a] > counts[b] ? a : b, dflt)`. -/
def mostCommonBy (squad : List Player) (f : Player → String) (dflt : String) : String :=
  (keysInOrder squad f).foldl
    (fun a b => if countBy squad f b < countBy squad f a then a else b) dflt

/-- `selectOptimalLeague`. -/
def selectOptimalLeague (parsedReqs : ParsedReqs) (currentSquad : List Player) : String :=
  match parsedReqs.constraints.leagues with
  | l :: _ => l
  | [] => mostCommonBy currentSquad (·.league) (playerDatabaseLeagues.getD 0 "")

/-- `selectOptimalNation`. -/
def selectOptimalNation (parsedReqs : ParsedReqs) (currentSquad : List Player) : String :=
  match parsedReqs.constraints.nations with
  | n :: _ => n
  | [] => mostCommonBy currentSquad (·.nation) (playerDatabaseNations.getD 0 "")

/-- `selectOptimalClub`. -/
def selectOptimalClub (parsedReqs : ParsedReqs) (_currentSquad : List Player) : String :=
  match parsedReqs.constraints.clubs with
  | c :: _ => c
  | [] => "Manchester City"

/-- `selectOptimalRarity`. -/
def selectOptimalRarity (parsedReqs : ParsedReqs) : String :=
  match parsedReqs.constraints.rarities with
  | r :: _ => r
  | [] =>
    if 85 ≤ parsedReqs.minRating then "gold"
    else if 75 ≤ parsedReqs.minRating then "silver"
    else "bronze"

/-- The position multiplier table of `estimatePlayerCost`,
with `|| 1.0` for any unlisted position. -/
def positionMultiplier (position : String) : ℚ :=
  if position = "GK" then 1.2
  else if position = "ST" then 1.3
  else if position = "CAM" then 1.2
  else if position = "CM" then 1.1
  else if position = "CB" then 1.0
  else if position = "LB" then 1.0
  else if position = "RB" then 1.0
  else 1.0

/-- `estimatePlayerCost`: base rarity cost, times `Math.max(1, (rating-70)/10)`,
times the position multiplier, then `Math.round`. -/
def estimatePlayerCost (player : Player) : ℤ :=
  jsRound (rarityBaseCost player.rarity
    * max 1 ((player.rating - 70 : ℚ) / 10)
    * positionMultiplier player.position)

/-- `calculateRequiredRating`.  The `ℚ` division models JS float division;
inside the build loop the divisor `remainingSlots` is always positive. -/
def calculateRequiredRating (parsedReqs : ParsedReqs) (currentSquad : List Player) : ℤ :=
  if currentSquad = [] then parsedReqs.minRating
  else
    let currentTotal : ℤ := (currentSquad.map (·.rating)).sum
    let remainingSlots : ℤ := parsedReqs.squadSize - currentSquad.length
    let requiredTotal : ℤ := parsedReqs.minRating * parsedReqs.squadSize
    let requiredForRemaining : ℤ := requiredTotal - currentTotal
    max (parsedReqs.minRating - 5)
      (jsCeil ((requiredForRemaining : ℚ) / (remainingSlots : ℚ)))

/-- `findOptimalPlayer`: build the candidate object, then fill in its cost.
It always returns a player object (truthy in the caller's `if`). -/
def findOptimalPlayer (position : String) (parsedReqs : ParsedReqs)
    (currentSquad : List Player) : Player :=
  let player : Player :=
    { position := position
      rating := calculateRequiredRating parsedReqs currentSquad
      league := selectOptimalLeague parsedReqs currentSquad
      nation := selectOptimalNation parsedReqs currentSquad
      club := selectOptimalClub parsedReqs currentSquad
      rarity := selectOptimalRarity parsedReqs
      cost := 0
      chemistry := 0 }
  { player with cost := estimatePlayerCost player }

/-- The per-player chemistry subtotal of `calculateChemistry` before the clamp:
`10` (position bonus) plus the three capped link bonuses.  "Other" squad
members are the entries at a different list index, modelling JS reference
inequality `p !== player` over the distinct objects the builder allocates. -/
def chemSubtotal (squad : List Player) (i : ℕ) (player : Player) : ℤ :=
  let leagueLinks : ℤ :=
    ((squad.enum.filter (fun jp => decide (jp.1 ≠ i) && decide (jp.2.league = player.league))).length : ℕ)
  let nationLinks : ℤ :=
    ((squad.enum.filter (fun jp => decide (jp.1 ≠ i) && decide (jp.2.nation = player.nation))).length : ℕ)
  let clubLinks : ℤ :=
    ((squad.enum.filter (fun jp => decide (jp.1 ≠ i) && decide (jp.2.club = player.club))).length : ℕ)
  10 + min (leagueLinks * 2) 8 + min (nationLinks * 1) 6 + min (clubLinks * 3) 12

/-- The clamped per-player chemistry written into `player.chemistry`. -/
def chemClamped (squad : List Player) (i : ℕ) (player : Player) : ℤ :=
  min (chemSubtotal squad i player) 10

/-- The squad after `calculateChemistry`'s `forEach` has written every
`player.chemistry` field (league/nation/club are never mutated, so the
sequential writes equal this simultaneous map). -/
def assignChemistry (squad : List Player) : List Player :=
  squad.enum.map (fun ip => { ip.2 with chemistry := chemClamped squad ip.1 ip.2 })

/-- The total returned by `calculateChemistry`; the final `Math.round` is
the identity on this integer sum. -/
def calculateChemistry (squad : List Player) : ℤ :=
  ((assignChemistry squad).map (·.chemistry)).sum

/-- `calculateSquadRating`: `0` for an empty squad, else the rounded mean. -/
def calculateSquadRating (squad : List Player) : ℤ :=
  if squad = [] then 0
  else jsRound ((((squad.map (·.rating)).sum : ℤ) : ℚ) / (squad.length : ℚ))

/-- The solution record (`success` is NOT a field: the code never sets it
on the object returned by the happy path). -/
structure Solution where
  squad : List Player
  totalCost : ℤ
  totalChemistry : ℤ
  totalRating : ℤ
  formation : Formation
  strategy : List String
  warnings : List String
deriving DecidableEq, Repr

/-- The squad list built by `generateSolution`'s fill loop, before
`calculateChemistry` writes the chemistry fields.  `findOptimalPlayer`
always returns an object, so the `if (playerSuggestion)` guard always
pushes; slots past the 11 formation labels use `'SUB'`
(`formation.positions[i] || 'SUB'`; every label is a nonempty, hence
truthy, string). -/
def buildSquad (parsedReqs : ParsedReqs) (formation : Formation) : List Player :=
  (List.range parsedReqs.squadSize.toNat).foldl
    (fun squad i => squad ++ [findOptimalPlayer (formation.positions.getD i "SUB") parsedReqs squad])
    []

/-- `generateSolution`. -/
def generateSolution (parsedReqs : ParsedReqs) : Solution :=
  let formation := selectOptimalFormation parsedReqs
  let squadRaw := buildSquad parsedReqs formation
  { squad := assignChemistry squadRaw
    totalCost := (squadRaw.map (·.cost)).sum
    totalChemistry := calculateChemistry squadRaw
    totalRating := calculateSquadRating (assignChemistry squadRaw)
    formation := formation
    strategy := []
    warnings := [] }

/-- The `checks` object of `checkRequirements` plus its `success` conjunction. -/
structure CheckResult where
  chemistry : Bool
  rating : Bool
  cost : Bool
  squadSize : Bool
  success : Bool
deriving DecidableEq, Repr

/-- `checkRequirements`. -/
def checkRequirements (solution : Solution) (parsedReqs : ParsedReqs) : CheckResult :=
  let chem := decide (parsedReqs.minChemistry ≤ solution.totalChemistry)
  let rat := decide (parsedReqs.minRating ≤ solution.totalRating)
  let cst := decide (solution.totalCost ≤ parsedReqs.maxCost)
  let sz := decide ((solution.squad.length : ℤ) = parsedReqs.squadSize)
  { chemistry := chem, rating := rat, cost := cst, squadSize := sz
    success := chem && rat && cst && sz }

/-- `optimizeSolution`: appends advisory strings; it never writes a
`success` field onto the solution. -/
def optimizeSolution (solution : Solution) (parsedReqs : ParsedReqs) : Solution :=
  let meetsRequirements := checkRequirements solution parsedReqs
  let s1 :=
    if meetsRequirements.success then solution
    else { solution with
      warnings := solution.warnings ++ ["Solution does not meet all requirements"]
      strategy := solution.strategy ++ ["Consider increasing budget or relaxing constraints"] }
  let s2 := { s1 with
    strategy := s1.strategy ++
      ["Use loyalty glitch for +1 chemistry per player",
       "Consider position change cards if needed",
       "Check market for price fluctuations"] }
  let s3 :=
    if parsedReqs.maxCost < s2.totalCost then
      let over := s2.totalCost - parsedReqs.maxCost
      { s2 with
        strategy := s2.strategy ++ ["Reduce player ratings to lower cost"]
        warnings := s2.warnings ++ [s!"Solution exceeds budget by {over} coins"] }
    else s2
  let s4 :=
    if s3.totalChemistry < parsedReqs.minChemistry then
      let tc := s3.totalChemistry
      let mc := parsedReqs.minChemistry
      { s3 with
        strategy := s3.strategy ++ ["Focus on same league/nation links"]
        warnings := s3.warnings ++ [s!"Chemistry {tc} below required {mc}"] }
    else s3
  s4

/-- The structured value returned to the caller: either the error shape
`{ error, success: false }` (produced by the entry point's `catch`), or the
solution object of the happy path, which carries no `success` key. -/
inductive SolveResult where
  | errRes : String → SolveResult
  | okRes : Solution → SolveResult
deriving DecidableEq

/-- The JS `success` property of the returned object: `some false` on the
error shape, and absent (`undefined`, modelled `none`) on a solution object. -/
def SolveResult.successField : SolveResult → Option Bool
  | .errRes _ => some false
  | .okRes _ => none

/-- The JS `error` property of the returned object. -/
def SolveResult.errorField : SolveResult → Option String
  | .errRes e => some e
  | .okRes _ => none

/-- `solveSBCRequirements`: validation failure throws
`Error('Invalid SBC requirements provided')`, which the entry point's
`catch` converts into the error result; otherwise parse, generate,
optimize.  No other statement on this path throws, so the embedding
is total. -/
def solveSBCRequirements (input : RawInput) : SolveResult :=
  if validateRequirements input then
    match input with
    | .notObject => .errRes "Invalid SBC requirements provided"
    | .obj r =>
      let parsedReqs := parseRequirements r
      .okRes (optimizeSolution (generateSolution parsedReqs) parsedReqs)
  else .errRes "Invalid SBC requirements provided"

/-- The `commonSBCs` preset table of `quickSolve`. -/
def commonSBCs (sbcType : String) : Option RawReq :=
  if sbcType = "daily_bronze" then
    some { emptyRaw with players := some 11, chemistry := some 95, rating := some 65,
                         maxCost := some 5000, rarities := some ["bronze"] }
  else if sbcType = "daily_silver" then
    some { emptyRaw with players := some 11, chemistry := some 95, rating := some 70,
                         maxCost := some 8000, rarities := some ["silver"] }
  else if sbcType = "daily_gold" then
    some { emptyRaw with players := some 11, chemistry := some 95, rating := some 75,
                         maxCost := some 12000, rarities := some ["gold"] }
  else if sbcType = "82_plus_pick" then
    some { emptyRaw with players := some 11, chemistry := some 95, rating := some 82,
                         maxCost := some 15000 }
  else if sbcType = "84_plus_upgrade" then
    some { emptyRaw with players := some 11, chemistry := some 95, rating := some 84,
                         maxCost := some 25000 }
  else none

/-- `quickSolve`. -/
def quickSolve (sbcType : String) : SolveResult :=
  match commonSBCs sbcType with
  | none => .errRes ("Unknown SBC type: " ++ sbcType)
  | some requirements => solveSBCRequirements (.obj requirements)

/-- Spec §4.4: the squad-mates other than the player occupying slot `i`. -/
def specOthers (squad : List Player) (i : ℕ) : List Player :=
  squad.take i ++ squad.drop (i + 1)

/-- Spec §4.4 per-player chemistry, written from the spec's words: start at
10, add 2 per other same-league squad-mate capped at +8, add 1 per other
same-nation squad-mate capped at +6, add 3 per other same-club squad-mate
capped at +12, then clamp the total to a maximum of 10. -/
def specPlayerChemistry (squad : List Player) (i : ℕ) : ℤ :=
  match squad.get? i with
  | none => 0
  | some player =>
    let sameLeague : ℤ :=
      (((specOthers squad i).filter (fun p => decide (p.league = player.league))).length : ℕ)
    let sameNation : ℤ :=
      (((specOthers squad i).filter (fun p => decide (p.nation = player.nation))).length : ℕ)
    let sameClub : ℤ :=
      (((specOthers squad i).filter (fun p => decide (p.club = player.club))).length : ℕ)
    min (10 + min (2 * sameLeague) 8 + min (sameNation * 1) 6 + min (3 * sameClub) 12) 10

/-- Spec §4.4 squad total: the sum of all clamped per-player values. -/
def specChemTotal (squad : List Player) : ℤ :=
  ((List.range squad.length).map (fun i => specPlayerChemistry squad i)).sum

/-- Spec §4.4 `computeRating`, written from the spec's words: the arithmetic
mean of all player ratings rounded half-up, and 0 for an empty squad. -/
def specComputeRating (squad : List Player) : ℤ :=
  if squad = [] then 0
  else ⌊(((squad.map (·.rating)).sum : ℤ) : ℚ) / ((squad.length : ℕ) : ℚ) + 1/2⌋

/-- The minimal valid requirements input `{players: 1, chemistry: 5}`. -/
def minimalReq : RawReq := { emptyRaw with players := some 1, chemistry := some 5 }

/-- A concrete player used to instantiate universally quantified theorems. -/
def samplePlayer : Player :=
  { position := "ST", rating := 75, league := "Premier League", nation := "England",
    club := "Manchester City", rarity := "gold", cost := 0, chemistry := 0 }

/-- A concrete player with a given rating, used to instantiate theorems. -/
def ratedPlayer (n : ℤ) : Player :=
  { position := "ST", rating := n, league := "Premier League", nation := "England",
    club := "Manchester City", rarity := "gold", cost := 0, chemistry := 0 }

/-- The normalized form of the concrete input `{players: 11, chemistry: 95}`. -/
def sampleParsed : ParsedReqs :=
  parseRequirements { emptyRaw with players := some 11, chemistry := some 95 }

/-- The candidate the builder synthesizes for the single slot of
`minimalReq` before its cost and chemistry are filled in. -/
def minimalCandidate : Player :=
  { position := "GK", rating := 75, league := "Premier League", nation := "England",
    club := "Manchester City", rarity := "silver", cost := 0, chemistry := 0 }

/-- The candidate for `minimalReq` after its cost has been estimated. -/
def minimalBuilt : Player := { minimalCandidate with cost := 480 }

/-- The candidate for `minimalReq` after cost estimation and chemistry assignment. -/
def minimalDone : Player := { minimalBuilt with chemistry := 10 }

lemma jsRound_eq {q : ℚ} {n : ℤ} (h1 : (n : ℚ) ≤ q + 1/2) (h2 : q + 1/2 < n + 1) :
    jsRound q = n := by
  unfold jsRound
  exact Int.floor_eq_iff.mpr ⟨h1, h2⟩

lemma jsRound_mono {a b : ℚ} (h : a ≤ b) : jsRound a ≤ jsRound b :=
  Int.floor_le_floor (add_le_add_right h _)

lemma rarityBaseCost_nonneg (s : String) : 0 ≤ rarityBaseCost s := by
  unfold rarityBaseCost
  split <;> try norm_num
  split <;> try norm_num
  split <;> norm_num

lemma positionMultiplier_nonneg (s : String) : 0 ≤ positionMultiplier s := by
  unfold positionMultiplier
  repeat' split
  all_goals norm_num

lemma chemSubtotal_ge_ten (squad : List Player) (i : ℕ) (player : Player) :
    10 ≤ chemSubtotal squad i player := by
  have gen : ∀ a b c : ℕ, (10 : ℤ) ≤
      10 + min ((a : ℤ) * 2) 8 + min ((b : ℤ) * 1) 6 + min ((c : ℤ) * 3) 12 := by
    intro a b c
    have h1 : (0 : ℤ) ≤ min ((a : ℤ) * 2) 8 := le_min (by positivity) (by norm_num)
    have h2 : (0 : ℤ) ≤ min ((b : ℤ) * 1) 6 := le_min (by positivity) (by norm_num)
    have h3 : (0 : ℤ) ≤ min ((c : ℤ) * 3) 12 := le_min (by positivity) (by norm_num)
    omega
  unfold chemSubtotal
  exact gen _ _ _

lemma chemClamped_eq_ten (squad : List Player) (i : ℕ) (player : Player) :
    chemClamped squad i player = 10 :=
  min_eq_right (chemSubtotal_ge_ten squad i player)

lemma sum_map_const_ten {α : Type} (l : List α) (f : α → ℤ) (h : ∀ a ∈ l, f a = 10) :
    (l.map f).sum = 10 * (l.length : ℤ) := by
  induction l with
  | nil => simp
  | cons a t ih =>
    have ha := h a (List.mem_cons_self a t)
    have ht := ih (fun b hb => h b (List.mem_cons_of_mem a hb))
    simp only [List.map_cons, List.sum_cons, List.length_cons, ha, ht]
    push_cast
    ring

lemma assignChemistry_length (squad : List Player) :
    (assignChemistry squad).length = squad.length := by
  unfold assignChemistry
  simp [List.enum_length]

lemma calculateChemistry_eq_ten_mul (squad : List Player) :
    calculateChemistry squad = 10 * (squad.length : ℤ) := by
  unfold calculateChemistry
  rw [sum_map_const_ten _ _ ?h, assignChemistry_length]
  intro p hp
  unfold assignChemistry at hp
  obtain ⟨ip, _, rfl⟩ := List.mem_map.mp hp
  exact chemClamped_eq_ten squad ip.1 ip.2

lemma buildSquad_go_length {α : Type} (l : List α) (g : List Player → α → Player)
    (init : List Player) :
    (l.foldl (fun sq i => sq ++ [g sq i]) init).length = init.length + l.length := by
  induction l generalizing init with
  | nil => simp
  | cons a t ih =>
    rw [List.foldl_cons, ih]
    simp only [List.length_append, List.length_cons, List.length_nil]
    omega

lemma buildSquad_length (parsedReqs : ParsedReqs) (formation : Formation) :
    (buildSquad parsedReqs formation).length = parsedReqs.squadSize.toNat := by
  unfold buildSquad
  rw [buildSquad_go_length]
  simp

lemma generateSolution_length (parsedReqs : ParsedReqs) :
    (generateSolution parsedReqs).squad.length = parsedReqs.squadSize.toNat := by
  unfold generateSolution
  simp only [assignChemistry_length, buildSquad_length]

lemma optimizeSolution_fields (solution : Solution) (parsedReqs : ParsedReqs) :
    (optimizeSolution solution parsedReqs).squad = solution.squad
    ∧ (optimizeSolution solution parsedReqs).totalCost = solution.totalCost
    ∧ (optimizeSolution solution parsedReqs).totalChemistry = solution.totalChemistry
    ∧ (optimizeSolution solution parsedReqs).totalRating = solution.totalRating := by
  unfold optimizeSolution
  dsimp only
  refine ⟨?_, ?_, ?_, ?_⟩ <;> (repeat' split) <;> rfl

lemma checkRequirements_optimize (solution : Solution) (parsedReqs : ParsedReqs) :
    checkRequirements (optimizeSolution solution parsedReqs) parsedReqs
      = checkRequirements solution parsedReqs := by
  obtain ⟨h1, h2, h3, h4⟩ := optimizeSolution_fields solution parsedReqs
  unfold checkRequirements
  rw [h1, h2, h3, h4]

/-- Claim C2: the spec says defaults are applied only to absent fields, so a
present minimum-chemistry value of `0` (inside the documented range [0,100])
should be preserved.  The code's `requirements.chemistry || 100` treats the
present `0` as falsy: normalization yields 100, not 0.  This theorem
evaluates the code at the failing input `{players: 11, chemistry: 0}`. -/
theorem parse_chemistry_zero_replaced_by_default :
    (parseRequirements { emptyRaw with players := some 11, chemistry := some 0 }).minChemistry
      = 100
    ∧ (parseRequirements { emptyRaw with players := some 11, chemistry := some 0 }).minChemistry
      ≠ 0 := by
  constructor <;> decide

/-- Claim C10: the distribution-limit fields (`maxSameLeague`, `maxSameNation`,
`maxSameClub`, `minDifferentLeagues`, `minDifferentNations`) and the
`positions` constraint map are parsed but never read afterwards: two inputs
that differ only in those fields produce identical solve results. -/
theorem solve_ignores_distribution_limits :
    ∀ (r : RawReq) (a b c d e : Option ℤ) (ps : Option (List (String × ℤ))),
      solveSBCRequirements (RawInput.obj
        { r with maxSameLeague := a, maxSameNation := b, maxSameClub := c,
                 minDifferentLeagues := d, minDifferentNations := e, positions := ps })
        = solveSBCRequirements (RawInput.obj r) :=
  fun _ _ _ _ _ _ _ => rfl

/-- Claim C7: both public entry points return structured error objects instead
of raising: a non-object input or an input missing the mandatory
`players` / `chemistry` keys yields the invalid-requirements error result with
`success: false`, and an unknown `quickSolve` preset name yields the
"Unknown SBC type" error result with `success: false`.  (The embedding of both
entry points is a total function, so no input escapes these structured
results.) -/
theorem entry_points_error_results :
    solveSBCRequirements RawInput.notObject
        = SolveResult.errRes "Invalid SBC requirements provided"
    ∧ (∀ r : RawReq, r.players = none ∨ r.chemistry = none →
        solveSBCRequirements (RawInput.obj r)
            = SolveResult.errRes "Invalid SBC requirements provided"
          ∧ (solveSBCRequirements (RawInput.obj r)).successField = some false)
    ∧ (∀ sbcType : String, commonSBCs sbcType = none →
        quickSolve sbcType = SolveResult.errRes ("Unknown SBC type: " ++ sbcType)
          ∧ (quickSolve sbcType).successField = some false) := by
  refine ⟨rfl, ?_, ?_⟩
  · intro r hr
    have hv : validateRequirements (RawInput.obj r) = false := by
      unfold validateRequirements
      rcases hr with h | h <;> simp [h]
    constructor
    · unfold solveSBCRequirements
      rw [hv]
      simp
    · unfold solveSBCRequirements
      rw [hv]
      simp [SolveResult.successField]
  · intro sbcType h
    constructor
    · unfold quickSolve
      rw [h]
    · unfold quickSolve
      rw [h]
      rfl

/-- Witness for `entry_points_error_results`: the hypotheses are satisfied by
the empty object `{}` and the preset name `'not_a_real_preset'`. -/
theorem entry_points_error_results_witness :
    (emptyRaw.players = none ∨ emptyRaw.chemistry = none)
    ∧ solveSBCRequirements (RawInput.obj emptyRaw)
        = SolveResult.errRes "Invalid SBC requirements provided"
    ∧ commonSBCs "not_a_real_preset" = none
    ∧ quickSolve "not_a_real_preset"
        = SolveResult.errRes ("Unknown SBC type: " ++ "not_a_real_preset") :=
  ⟨Or.inl rfl,
   (entry_points_error_results.2.1 emptyRaw (Or.inl rfl)).1,
   by decide,
   (entry_points_error_results.2.2 "not_a_real_preset" (by decide)).1⟩

/-- Claim C9: for a fixed rarity and position, `estimatePlayerCost` is
monotonically non-decreasing in the player's rating. -/
theorem estimatePlayerCost_mono_in_rating :
    ∀ (player : Player) (r1 r2 : ℤ), r1 ≤ r2 →
      estimatePlayerCost { player with rating := r1 }
        ≤ estimatePlayerCost { player with rating := r2 } := by
  intro player r1 r2 h
  unfold estimatePlayerCost
  apply jsRound_mono
  dsimp only
  have hmax : max (1 : ℚ) ((r1 - 70 : ℚ) / 10) ≤ max 1 ((r2 - 70 : ℚ) / 10) := by
    apply max_le_max le_rfl
    apply div_le_div_of_nonneg_right ?_ (by norm_num)
    exact sub_le_sub_right (by exact_mod_cast h) 70
  exact mul_le_mul_of_nonneg_right
    (mul_le_mul_of_nonneg_left hmax (rarityBaseCost_nonneg player.rarity))
    (positionMultiplier_nonneg player.position)

/-- Witness for `estimatePlayerCost_mono_in_rating` at ratings 70 and 90. -/
theorem estimatePlayerCost_mono_in_rating_witness :
    (70 : ℤ) ≤ 90
    ∧ estimatePlayerCost { samplePlayer with rating := 70 }
        ≤ estimatePlayerCost { samplePlayer with rating := 90 } :=
  ⟨by decide, estimatePlayerCost_mono_in_rating samplePlayer 70 90 (by decide)⟩

/-- Claim C5: the per-slot rating equals the normalized minimum rating for an
empty partial squad, and otherwise
`max(minRating - 5, ceil((minRating * squadSize - sumOfRatingsSoFar) / remainingSlots))`
with `remainingSlots = squadSize - number placed`. -/
theorem calculateRequiredRating_spec :
    ∀ (parsedReqs : ParsedReqs) (currentSquad : List Player),
      (currentSquad = [] →
        calculateRequiredRating parsedReqs currentSquad = parsedReqs.minRating)
      ∧ (currentSquad ≠ [] →
        calculateRequiredRating parsedReqs currentSquad =
          max (parsedReqs.minRating - 5)
            ⌈((parsedReqs.minRating * parsedReqs.squadSize
                - (currentSquad.map (·.rating)).sum : ℤ) : ℚ)
              / ((parsedReqs.squadSize - (currentSquad.length : ℤ) : ℤ) : ℚ)⌉) := by
  intro p s
  constructor
  · intro h
    subst h
    rfl
  · intro h
    unfold calculateRequiredRating
    rw [if_neg h]
    rfl

/-- Witness for `calculateRequiredRating_spec`: both hypotheses discharged on
the empty squad and on a concrete one-player squad. -/
theorem calculateRequiredRating_spec_witness :
    calculateRequiredRating sampleParsed [] = sampleParsed.minRating
    ∧ ([ratedPlayer 75] : List Player) ≠ []
    ∧ calculateRequiredRating sampleParsed [ratedPlayer 75] =
        max (sampleParsed.minRating - 5)
          ⌈((sampleParsed.minRating * sampleParsed.squadSize
              - ([ratedPlayer 75].map (·.rating)).sum : ℤ) : ℚ)
            / ((sampleParsed.squadSize - (([ratedPlayer 75] : List Player).length : ℤ) : ℤ) : ℚ)⌉ :=
  ⟨(calculateRequiredRating_spec sampleParsed []).1 rfl,
   by decide,
   (calculateRequiredRating_spec sampleParsed [ratedPlayer 75]).2 (by decide)⟩

/-- Claim C6: the construction step always returns exactly `squadSize` players
(one appended per slot), so the squad-size sub-check of `checkRequirements`
compares equal lengths and passes. -/
theorem generateSolution_squad_length_check :
    ∀ parsedReqs : ParsedReqs, 0 < parsedReqs.squadSize →
      ((generateSolution parsedReqs).squad.length : ℤ) = parsedReqs.squadSize
      ∧ (checkRequirements (generateSolution parsedReqs) parsedReqs).squadSize = true := by
  intro p hp
  have hlen : ((generateSolution p).squad.length : ℤ) = p.squadSize := by
    rw [generateSolution_length]
    exact Int.toNat_of_nonneg (le_of_lt hp)
  refine ⟨hlen, ?_⟩
  unfold checkRequirements
  dsimp only
  rw [hlen]
  simp

/-- Witness for `generateSolution_squad_length_check` at the concrete
normalized input with squad size 11. -/
theorem generateSolution_squad_length_check_witness :
    0 < sampleParsed.squadSize
    ∧ ((generateSolution sampleParsed).squad.length : ℤ) = sampleParsed.squadSize
    ∧ (checkRequirements (generateSolution sampleParsed) sampleParsed).squadSize = true :=
  ⟨by decide, generateSolution_squad_length_check sampleParsed (by decide)⟩

/-- Claim C8: the aggregate squad rating is the round-half-up arithmetic mean
of the player ratings, 0 for the empty squad; ratings [70, 71] give 71. -/
theorem calculateSquadRating_rounded_mean :
    (∀ squad : List Player, calculateSquadRating squad = specComputeRating squad)
    ∧ calculateSquadRating [] = 0
    ∧ calculateSquadRating [ratedPlayer 70, ratedPlayer 71] = 71 := by
  refine ⟨?_, rfl, ?_⟩
  · intro s
    unfold calculateSquadRating specComputeRating jsRound
    rfl
  · have hne : ([ratedPlayer 70, ratedPlayer 71] : List Player) ≠ [] := by decide
    unfold calculateSquadRating
    rw [if_neg hne]
    dsimp only [ratedPlayer]
    simp only [List.map_cons, List.map_nil, List.sum_cons, List.sum_nil,
      List.length_cons, List.length_nil]
    apply jsRound_eq <;> norm_num

lemma ten_le_ten_add_mins {x y z : ℤ} (hx : 0 ≤ x) (hy : 0 ≤ y) (hz : 0 ≤ z) :
    (10 : ℤ) ≤ 10 + min x 8 + min y 6 + min z 12 := by
  omega

lemma specPlayerChemistry_eq_ten (squad : List Player) (i : ℕ) (h : i < squad.length) :
    specPlayerChemistry squad i = 10 := by
  unfold specPlayerChemistry
  rw [List.get?_eq_getElem?, List.getElem?_eq_getElem h]
  dsimp only
  exact min_eq_right (ten_le_ten_add_mins (by positivity) (by positivity) (by positivity))

lemma specChemTotal_eq_ten_mul (squad : List Player) :
    specChemTotal squad = 10 * (squad.length : ℤ) := by
  unfold specChemTotal
  rw [sum_map_const_ten (List.range squad.length) _
    (fun i hi => specPlayerChemistry_eq_ten squad i (List.mem_range.mp hi)), List.length_range]

/-- Claim C3: `calculateChemistry` computes, for every player, 10 plus the
three capped link bonuses clamped at 10, and sums the clamped values; every
per-player value lies in [0,10] and the total lies in [0, 10·N]. -/
theorem calculateChemistry_matches_spec :
    (∀ squad : List Player, calculateChemistry squad = specChemTotal squad)
    ∧ (∀ (squad : List Player) (i : ℕ), i < squad.length →
        0 ≤ specPlayerChemistry squad i ∧ specPlayerChemistry squad i ≤ 10)
    ∧ (∀ squad : List Player,
        0 ≤ calculateChemistry squad ∧ calculateChemistry squad ≤ 10 * (squad.length : ℤ)) := by
  refine ⟨?_, ?_, ?_⟩
  · intro s
    rw [calculateChemistry_eq_ten_mul, specChemTotal_eq_ten_mul]
  · intro s i h
    rw [specPlayerChemistry_eq_ten s i h]
    constructor <;> norm_num
  · intro s
    rw [calculateChemistry_eq_ten_mul]
    exact ⟨by positivity, le_refl _⟩

/-- Witness for `calculateChemistry_matches_spec` on a one-player squad. -/
theorem calculateChemistry_matches_spec_witness :
    (0 : ℕ) < ([samplePlayer] : List Player).length
    ∧ 0 ≤ specPlayerChemistry [samplePlayer] 0 ∧ specPlayerChemistry [samplePlayer] 0 ≤ 10 :=
  ⟨by decide,
   (calculateChemistry_matches_spec.2.1 [samplePlayer] 0 (by decide)).1,
   (calculateChemistry_matches_spec.2.1 [samplePlayer] 0 (by decide)).2⟩

/-- Claim C4: every squad the builder produces has per-player chemistry
exactly 10 (the flat position bonus already reaches the clamp ceiling), the
total is exactly 10 times the squad length, and for an 11-player build the
chemistry sub-check passes whenever the required minimum is at most 100. -/
theorem builder_chemistry_always_ten :
    ∀ parsedReqs : ParsedReqs,
      (∀ (i : ℕ) (h : i < (generateSolution parsedReqs).squad.length),
        ((generateSolution parsedReqs).squad.get ⟨i, h⟩).chemistry = 10)
      ∧ (generateSolution parsedReqs).totalChemistry
          = 10 * ((generateSolution parsedReqs).squad.length : ℤ)
      ∧ (parsedReqs.squadSize = 11 → parsedReqs.minChemistry ≤ 100 →
          (checkRequirements (generateSolution parsedReqs) parsedReqs).chemistry = true) := by
  intro p
  have hsq : (generateSolution p).squad
      = assignChemistry (buildSquad p (selectOptimalFormation p)) := rfl
  have hc : (generateSolution p).totalChemistry
      = 10 * ((generateSolution p).squad.length : ℤ) := by
    have : (generateSolution p).totalChemistry
        = calculateChemistry (buildSquad p (selectOptimalFormation p)) := rfl
    rw [this, calculateChemistry_eq_ten_mul, hsq, assignChemistry_length]
  refine ⟨?_, hc, ?_⟩
  · intro i h
    have h2 : i < (assignChemistry (buildSquad p (selectOptimalFormation p))).length := by
      rw [← hsq]
      exact h
    show ((assignChemistry (buildSquad p (selectOptimalFormation p))).get ⟨i, h2⟩).chemistry = 10
    unfold assignChemistry
    simp only [List.get_eq_getElem, List.getElem_map]
    exact chemClamped_eq_ten _ _ _
  · intro h11 hmc
    have hlen : ((generateSolution p).squad.length : ℤ) = 11 := by
      rw [generateSolution_length, h11]
      rfl
    unfold checkRequirements
    dsimp only
    rw [hc, hlen]
    exact decide_eq_true (by omega)

/-- Witness for `builder_chemistry_always_ten` at the concrete normalized
input with squad size 11 and minimum chemistry 95. -/
theorem builder_chemistry_always_ten_witness :
    sampleParsed.squadSize = 11
    ∧ sampleParsed.minChemistry ≤ 100
    ∧ (checkRequirements (generateSolution sampleParsed) sampleParsed).chemistry = true
    ∧ (0 : ℕ) < (generateSolution sampleParsed).squad.length
    ∧ ((generateSolution sampleParsed).squad.get
        ⟨0, by rw [generateSolution_length]; decide⟩).chemistry = 10 :=
  ⟨by decide, by decide,
   (builder_chemistry_always_ten sampleParsed).2.2 (by decide) (by decide),
   by rw [generateSolution_length]; decide,
   (builder_chemistry_always_ten sampleParsed).1 0 (by rw [generateSolution_length]; decide)⟩

lemma cost_minimalCandidate : estimatePlayerCost minimalCandidate = 480 := by
  unfold estimatePlayerCost minimalCandidate rarityBaseCost positionMultiplier
  dsimp only
  rw [if_neg (by decide), if_pos rfl, if_pos rfl]
  rw [show ((((75 : ℤ) : ℚ) - 70) / 10) = 1/2 by norm_num]
  rw [max_eq_left (by norm_num : (1 : ℚ)/2 ≤ 1)]
  apply jsRound_eq <;> norm_num

lemma find_minimal :
    findOptimalPlayer "GK" (parseRequirements minimalReq) [] = minimalBuilt := by
  have h : findOptimalPlayer "GK" (parseRequirements minimalReq) []
      = { minimalCandidate with cost := estimatePlayerCost minimalCandidate } := rfl
  rw [h, cost_minimalCandidate]
  rfl

lemma build_minimal :
    buildSquad (parseRequirements minimalReq) formation433 = [minimalBuilt] := by
  have h : buildSquad (parseRequirements minimalReq) formation433
      = [findOptimalPlayer "GK" (parseRequirements minimalReq) []] := rfl
  rw [h, find_minimal]

lemma assign_minimal : assignChemistry [minimalBuilt] = [minimalDone] := by
  have h : assignChemistry [minimalBuilt]
      = [{ minimalBuilt with chemistry := chemClamped [minimalBuilt] 0 minimalBuilt }] := rfl
  rw [h, chemClamped_eq_ten]
  rfl

lemma rating_minimal : calculateSquadRating [minimalDone] = 75 := by
  unfold calculateSquadRating
  rw [if_neg (by decide)]
  simp only [List.map_cons, List.map_nil, List.sum_cons, List.sum_nil,
    List.length_cons, List.length_nil]
  apply jsRound_eq <;> norm_num [minimalDone, minimalBuilt, minimalCandidate]

lemma gen_minimal :
    generateSolution (parseRequirements minimalReq)
      = { squad := [minimalDone], totalCost := 480, totalChemistry := 10, totalRating := 75,
          formation := formation433, strategy := [], warnings := [] } := by
  have hch : calculateChemistry [minimalBuilt] = 10 := by
    rw [calculateChemistry_eq_ten_mul]
    rfl
  unfold generateSolution
  dsimp only [selectOptimalFormation]
  rw [build_minimal, assign_minimal, hch, rating_minimal]
  rfl

/-- Claim C1: contrary to the spec (and to the repository's own README, which
documents `success: true` on returned solutions), the happy path never writes
a `success` field: here the four-way requirement check is satisfied, the
caller receives the solution object, and its `success` property is absent
(`undefined`), not `true`.  Only the error path carries `success: false`. -/
theorem solve_check_passes_but_success_field_absent :
    (checkRequirements
        (optimizeSolution (generateSolution (parseRequirements minimalReq))
          (parseRequirements minimalReq))
        (parseRequirements minimalReq)).success = true
    ∧ solveSBCRequirements (RawInput.obj minimalReq)
        = SolveResult.okRes
            (optimizeSolution (generateSolution (parseRequirements minimalReq))
              (parseRequirements minimalReq))
    ∧ (solveSBCRequirements (RawInput.obj minimalReq)).successField = none := by
  refine ⟨?_, rfl, rfl⟩
  rw [checkRequirements_optimize, gen_minimal]
  decide
